import Mathlib

/-!
Verification of the FAO-56 irrigation scheduler (`scheduler.py`,
`profile_prep.py`, `lib/util.py`, `lib/soil_api_client.py`).

The external crop-growth simulator (AquaCrop), the pandas/numpy data frames
and the remote data providers are outside the program under verification;
they are shallowly embedded as abstract functions and plain lists.  Machine
floats are modelled by the rationals.  Python exceptions are modelled with
`Except`.
-/

namespace Fao56Scheduler

/-! ## Objective Evaluator — `scheduler.py` `_eval_smt` (lines 79-120)

`_run_model_opt` runs the external AquaCrop simulator for one trigger vector
under a fixed scenario and returns its results table.  We embed the simulator
run as an abstract function `runModel : List ℚ → SimResults` (the scenario —
crop, soil, weather, cap, dates — is fixed inside the closure, exactly as the
extra arguments of `_run_model_opt` fix it). -/

/-- The columns of the simulator's results table used by `_eval_smt`:
`out_results['Dry yield (tonne/ha)']` and
`out_results['Seasonal irrigation (mm)']`, one entry per simulated season. -/
structure SimResults where
  dryYield : List ℚ
  seasonalIrr : List ℚ
deriving DecidableEq

/-- pandas `Series.mean()`: sum of the entries divided by their count. -/
def mean (l : List ℚ) : ℚ := l.sum / l.length

/-- Return value of `_eval_smt`: a bare float in non-diagnostic mode
(`is_test_run=False`), a triple `(yld, tirr, reward)` in diagnostic mode. -/
inductive EvalOut where
  | scalar (r : ℚ)
  | triple (yld tirr reward : ℚ)
deriving DecidableEq

/-- `scheduler.py` lines 79-120 (`_eval_smt`): run the model, take the mean
dry yield as `reward`; in diagnostic mode return `(yld, tirr, reward)`,
otherwise return `-reward`. -/
def eval_smt (runModel : List ℚ → SimResults) (smt_values_to_test : List ℚ)
    (is_test_run : Bool) : EvalOut :=
  let out_results := runModel smt_values_to_test
  let yld := mean out_results.dryYield
  let reward := yld
  if is_test_run then
    EvalOut.triple yld (mean out_results.seasonalIrr) reward
  else
    EvalOut.scalar (-reward)

/-! ## Start-Point Search — `scheduler.py` `_find_start_smt` (lines 127-179)

The multiprocessing pool applies `_eval_smt_start` to the prepared tasks in
order (`pool.starmap` preserves order); a worker exception is re-raised by
`starmap` and, like a pool-construction failure, is caught by the
`except Exception` at line 166, which triggers the strictly sequential
fallback loop over the same tasks.  An exception in the sequential loop
propagates out of `_find_start_smt`.  `evalAll` embeds one such in-order
evaluation pass with exception propagation; `poolFails` models a failure of
the parallel backend itself. -/

/-- `np.argmin`: index of the first occurrence of the minimal element. -/
def argminIdx : List ℚ → ℕ
  | [] => 0
  | [_] => 0
  | x :: y :: ys =>
    let j := argminIdx (y :: ys)
    if x ≤ (y :: ys).getD j 0 then 0 else j + 1

/-- Evaluate every task in order with the per-candidate evaluator; the first
exception aborts the whole pass (`rlist` is discarded when the loop raises). -/
def evalAll (evalF : List ℚ → Except String ℚ) :
    List (List ℚ) → Except String (List ℚ)
  | [] => Except.ok []
  | t :: ts =>
    match evalF t with
    | Except.error e => Except.error e
    | Except.ok r =>
      match evalAll evalF ts with
      | Except.error e => Except.error e
      | Except.ok rs => Except.ok (r :: rs)

/-- `scheduler.py` lines 127-179 (`_find_start_smt`).  `x0list` are the drawn
candidates (`np.random.rand(num_searches, num_smts) * 100`), `evalF` the
per-candidate evaluation (`_eval_smt_start` with the common arguments,
non-diagnostic), `poolFails` whether the parallel backend itself fails.
On an empty score list the fixed default `[50.0] * num_smts` is returned
(line 176); otherwise `x0list[np.argmin(rlist)]` (line 178). -/
def find_start_smt (num_smts : ℕ) (x0list : List (List ℚ))
    (evalF : List ℚ → Except String ℚ) (poolFails : Bool) :
    Except String (List ℚ) :=
  let parallelAttempt : Except String (List ℚ) :=
    if poolFails then Except.error "pool failure" else evalAll evalF x0list
  let rlistE : Except String (List ℚ) :=
    match parallelAttempt with
    | Except.ok rs => Except.ok rs
    | Except.error _ => evalAll evalF x0list
  match rlistE with
  | Except.error e => Except.error e
  | Except.ok rlist =>
    if rlist.isEmpty then Except.ok (List.replicate num_smts 50)
    else Except.ok (x0list.getD (argminIdx rlist) [])

/-! ## Orchestrator clip — `scheduler.py` line 283 -/

/-- `np.clip(optimal_smts, 0, 100)`: each component is raised to at least 0
and lowered to at most 100. -/
def clip100 (v : List ℚ) : List ℚ := v.map (fun x => min (max x 0) 100)

/-! ## Schedule Materializer — `scheduler.py` lines 325-332

`pd.date_range(start, end)` has one row per calendar day of the window, `m`
rows in total; the `IrrDay` column is initialised to `0.0` on all `m` rows
and its first `len_to_use = min(len(irr_day_values), m)` entries are then
overwritten, in order, by `irr_day_values[:len_to_use]`. -/

/-- The `IrrDay` column of the materialized schedule for a calendar window of
`m` days and simulator-reported daily series `irr`. -/
def irrDayColumn (m : ℕ) (irr : List ℚ) : List ℚ :=
  let lenToUse := min irr.length m
  irr.take lenToUse ++ List.replicate (m - lenToUse) (0 : ℚ)

/-! ## Orchestrator front end — `scheduler.py` `generate_schedule` lines
246-261 and `profile_prep.py` lines 33-83

The filesystem is embedded as a predicate `fs : String → Bool` (does a path
exist).  The configuration loading, weather fetching/cleaning/reformatting
and soil generation of `profile_prep` (lines 38-67) are abstracted into the
filesystem state `fs` observed by the existence checks of lines 69-76; an
exception escaping that generation phase is wrapped into a `RuntimeError`
(lines 82-83) and modelled by `genError`.  A `FileNotFoundError` raised by
the checks is re-raised unchanged (lines 80-81). -/

/-- Exceptions that `profile_prep` can raise: `FileNotFoundError` carrying
the missing absolute path (lines 69-76), or `RuntimeError` wrapping any
other exception of the generation phase (lines 82-83). -/
inductive PrepError where
  | fileNotFound (path : String)
  | runtimeError (msg : String)
deriving DecidableEq

/-- `profile_prep.py` lines 33-83: after the data-acquisition phase (whose
effect on disk is `fs` and whose escaping exception, if any, is `genError`),
check that the formatted climate file and the soil file exist, climate
first; raise `FileNotFoundError` naming the absent path otherwise. -/
def profile_prep (genError : Option String) (fs : String → Bool)
    (climatePath soilPath : String) : Except PrepError Unit :=
  match genError with
  | some m => Except.error (PrepError.runtimeError m)
  | none =>
    if fs climatePath = false then
      Except.error (PrepError.fileNotFound climatePath)
    else if fs soilPath = false then
      Except.error (PrepError.fileNotFound soilPath)
    else Except.ok ()

/-- Digits-to-number accumulator for `pyToInt`. -/
def natFromDigits (cs : List Char) : ℕ :=
  cs.foldl (fun acc c => 10 * acc + (c.toNat - ('0').toNat)) 0

/-- Whitespace stripping as done by Python `int(str)`. -/
def pyTrim (cs : List Char) : List Char :=
  ((cs.dropWhile Char.isWhitespace).reverse.dropWhile Char.isWhitespace).reverse

/-- Python `int(str)`: strip surrounding whitespace, allow one optional sign,
then require a non-empty run of decimal digits.  (Underscore digit grouping
is not modelled.) -/
def pyToInt (cs : List Char) : Option Int :=
  let t := pyTrim cs
  let signed : Int × List Char :=
    match t with
    | c :: rest =>
      if c = '-' then (-1, rest) else if c = '+' then (1, rest) else (1, t)
    | [] => (1, t)
  if signed.2 = [] then none
  else if signed.2.all Char.isDigit then
    some (signed.1 * (natFromDigits signed.2 : Int))
  else none

/-- Python `str.split('/')`: split into the (never empty) list of groups
between slashes. -/
def splitOnSlash : List Char → List (List Char)
  | [] => [[]]
  | c :: rest =>
    if c = '/' then [] :: splitOnSlash rest
    else
      match splitOnSlash rest with
      | [] => [[c]]
      | g :: gs => (c :: g) :: gs

/-- `scheduler.py` lines 258-259: `int(date.split('/')[0])` — only the text
before the first slash is parsed; `none` models the `int()` call raising. -/
def parseYearPy (s : String) : Option Int :=
  pyToInt ((splitOnSlash s.toList).headD [])

/-- Modelled from the spec: a date string in `YYYY/MM/DD` form — exactly
three `/`-separated fields of 4, 2 and 2 decimal digits.  Used only to
compare the spec's notion of a well-formed date with the source's actual
validation in `generate_schedule`. -/
def specIsDateYYYYMMDD (s : String) : Bool :=
  match splitOnSlash s.toList with
  | [y, m, d] =>
    (y.length == 4) && y.all Char.isDigit &&
    (m.length == 2) && m.all Char.isDigit &&
    (d.length == 2) && d.all Char.isDigit
  | _ => false

/-- Exceptions surfaced by the front end of `generate_schedule`:
the re-wrapped `FileNotFoundError` naming the missing path (line 252),
the re-wrapped `RuntimeError` (line 255), and the `ValueError` of the date
parsing (line 261). -/
inductive SchedError where
  | missingInput (path : String)
  | prepRuntime (msg : String)
  | invalidDates
deriving DecidableEq

/-- `scheduler.py` lines 246-345 (`generate_schedule`): run `profile_prep`
and re-raise its errors (lines 248-255), then parse the two simulation dates
into years (lines 257-261), then hand over to the optimization, final
simulation and schedule materialization (lines 263-345), which are
abstracted as `rest` applied to the two parsed years. -/
def generate_schedule (genError : Option String) (fs : String → Bool)
    (climatePath soilPath : String) (sim_start_date sim_end_date : String)
    (rest : Int → Int → Except SchedError (List ℚ × String)) :
    Except SchedError (List ℚ × String) :=
  match profile_prep genError fs climatePath soilPath with
  | Except.error (PrepError.fileNotFound p) =>
    Except.error (SchedError.missingInput p)
  | Except.error (PrepError.runtimeError m) =>
    Except.error (SchedError.prepRuntime m)
  | Except.ok _ =>
    match parseYearPy sim_start_date, parseYearPy sim_end_date with
    | some sim_year1, some sim_year2 => rest sim_year1 sim_year2
    | _, _ => Except.error SchedError.invalidDates

/-! ## Reference evapotranspiration — `lib/util.py` `pm_ops` (lines 9-46)

The `aqcrop_eto` and `unit_conversion` helpers imported by `util.py` are
repository modules the claims treat as opaque; they are embedded as a bundle
of abstract rational-valued functions. -/

/-- One row of the NASA POWER weather frame, with the columns `pm_ops`
reads. -/
structure WeatherRow where
  T2M_MAX : ℚ
  T2M_MIN : ℚ
  T2MDEW : ℚ
  ALLSKY_SFC_SW_DWN : ℚ
  ALLSKY_SFC_SW_UP : ℚ
  ALLSKY_SFC_LW_DWN : ℚ
  ALLSKY_SFC_LW_UP : ℚ
  PS : ℚ
  WS2M : ℚ
deriving DecidableEq

/-- The `aqcrop_eto` / `unit_conversion` functions used by `pm_ops`, kept
abstract (their modules are opaque collaborators of `util.py`).
`fao56_penman_monteith` takes, in order: net radiation, temperature, wind
speed, saturation vapour pressure, actual vapour pressure, slope of the
saturation vapour pressure curve, psychrometric constant, soil heat flux. -/
structure EtoLib where
  fao56_penman_monteith : ℚ → ℚ → ℚ → ℚ → ℚ → ℚ → ℚ → ℚ → ℚ
  daily_mean_t : ℚ → ℚ → ℚ
  svp_from_t : ℚ → ℚ
  avp_from_tdew : ℚ → ℚ
  delta_svp : ℚ → ℚ
  psy_const : ℚ → ℚ
  celsius2kelvin : ℚ → ℚ

/-- The `ETo` value computed inside `pm_ops` (lines 33-45), with the
argument expressions exactly as in the source. -/
def etoOf (lib : EtoLib) (row : WeatherRow) : ℚ :=
  lib.fao56_penman_monteith
    ((row.ALLSKY_SFC_SW_DWN - row.ALLSKY_SFC_SW_UP) +
      (row.ALLSKY_SFC_LW_DWN - row.ALLSKY_SFC_LW_UP))
    (lib.celsius2kelvin (lib.daily_mean_t row.T2M_MIN row.T2M_MAX))
    row.WS2M
    (lib.svp_from_t (lib.daily_mean_t row.T2M_MIN row.T2M_MAX))
    (lib.avp_from_tdew row.T2MDEW)
    (lib.delta_svp (lib.daily_mean_t row.T2M_MIN row.T2M_MAX))
    (lib.psy_const row.PS)
    0

/-- `lib/util.py` lines 9-46 (`pm_ops`): `max(ETo, 0)`. -/
def pm_ops (lib : EtoLib) (row : WeatherRow) : ℚ :=
  max (etoOf lib row) 0

/-! ## Soil layer gap fill — `lib/soil_api_client.py`
`Soil_client.extract_and_save_soil_data` (lines 56-197)

The per-depth JSON parsing (lines 59-91) reduces each of the four requested
depths `0-30cm, 30-60cm, 60-100cm, 100-200cm` to an optional clay, sand and
organic-matter value (`None` when the layer list is empty, the property is
absent or its mean is missing); a depth absent from the API response is
initialised to the same all-`None` record (lines 100-107).  `SoilState`
embeds the result of that parsing stage; the numeric unit conversions do not
affect which values are present.

Stage A (lines 110-124) fills each completely empty layer, in depth order,
from the layer with data nearest by index (`min` with key `abs(index
difference)` returns the first minimum, i.e. prefers the lower index on
ties), copying all three properties; later fills see earlier fills.

Stage B (lines 127-156) then fills each still-missing property value from
the nearest non-missing value of the same property above (scanning upwards),
falling back to the nearest below (scanning downwards).  The inner loop over
properties reads and writes only the property being filled, so the nested
loop over layers then properties acts on the three property columns
independently, each column being processed in layer order 0,1,2,3. -/

/-- The optional clay, sand and organic-matter values of one depth layer as
produced by the extraction loop (lines 62-91). -/
structure SoilLayer where
  clay : Option ℚ
  sand : Option ℚ
  om : Option ℚ
deriving DecidableEq

/-- The four depth layers `0-30cm, 30-60cm, 60-100cm, 100-200cm` in order. -/
structure SoilState where
  l0 : SoilLayer
  l1 : SoilLayer
  l2 : SoilLayer
  l3 : SoilLayer
deriving DecidableEq

/-- A layer has data iff at least one of its three properties is present
(negation of `is_empty`, line 111). -/
def hasData (l : SoilLayer) : Bool :=
  l.clay.isSome || l.sand.isSome || l.om.isSome

/-- Stage A fill of layer 0: candidate sources at distances 1,2,3 are layers
1,2,3; first minimum wins. -/
def fillMissing0 (s : SoilState) : SoilState :=
  if hasData s.l0 then s
  else if hasData s.l1 then { s with l0 := s.l1 }
  else if hasData s.l2 then { s with l0 := s.l2 }
  else if hasData s.l3 then { s with l0 := s.l3 }
  else s

/-- Stage A fill of layer 1: distances are 1 (layer 0), 1 (layer 2),
2 (layer 3); the tie between layers 0 and 2 goes to layer 0. -/
def fillMissing1 (s : SoilState) : SoilState :=
  if hasData s.l1 then s
  else if hasData s.l0 then { s with l1 := s.l0 }
  else if hasData s.l2 then { s with l1 := s.l2 }
  else if hasData s.l3 then { s with l1 := s.l3 }
  else s

/-- Stage A fill of layer 2: distances are 2 (layer 0), 1 (layer 1),
1 (layer 3); the tie between layers 1 and 3 goes to layer 1. -/
def fillMissing2 (s : SoilState) : SoilState :=
  if hasData s.l2 then s
  else if hasData s.l1 then { s with l2 := s.l1 }
  else if hasData s.l3 then { s with l2 := s.l3 }
  else if hasData s.l0 then { s with l2 := s.l0 }
  else s

/-- Stage A fill of layer 3: distances are 3 (layer 0), 2 (layer 1),
1 (layer 2). -/
def fillMissing3 (s : SoilState) : SoilState :=
  if hasData s.l3 then s
  else if hasData s.l2 then { s with l3 := s.l2 }
  else if hasData s.l1 then { s with l3 := s.l1 }
  else if hasData s.l0 then { s with l3 := s.l0 }
  else s

/-- Stage A (lines 110-124): fill completely missing layers in depth
order. -/
def stageA (s : SoilState) : SoilState :=
  fillMissing3 (fillMissing2 (fillMissing1 (fillMissing0 s)))

/-- One property column of the four layers. -/
structure PropCol where
  v0 : Option ℚ
  v1 : Option ℚ
  v2 : Option ℚ
  v3 : Option ℚ
deriving DecidableEq

/-- First defined of two optional values (`above` preferred over `below`,
lines 151-156). -/
def firstSome (a b : Option ℚ) : Option ℚ :=
  match a with
  | some x => some x
  | none => b

/-- Stage B fill of the column entry for layer 0: nothing above; below scan
hits layers 1, 2, 3 in order. -/
def fillCol0 (c : PropCol) : PropCol :=
  if c.v0.isSome then c
  else { c with v0 := firstSome c.v1 (firstSome c.v2 c.v3) }

/-- Stage B fill for layer 1: above scan hits layer 0; below scan hits
layers 2, 3. -/
def fillCol1 (c : PropCol) : PropCol :=
  if c.v1.isSome then c
  else { c with v1 := firstSome c.v0 (firstSome c.v2 c.v3) }

/-- Stage B fill for layer 2: above scan hits layers 1, 0 in order; below
scan hits layer 3. -/
def fillCol2 (c : PropCol) : PropCol :=
  if c.v2.isSome then c
  else { c with v2 := firstSome (firstSome c.v1 c.v0) c.v3 }

/-- Stage B fill for layer 3: above scan hits layers 2, 1, 0 in order;
nothing below. -/
def fillCol3 (c : PropCol) : PropCol :=
  if c.v3.isSome then c
  else { c with v3 := firstSome c.v2 (firstSome c.v1 c.v0) }

/-- Stage B on one property column, layers processed in order 0,1,2,3 with
earlier fills visible to later ones (lines 127-156). -/
def fillCol (c : PropCol) : PropCol :=
  fillCol3 (fillCol2 (fillCol1 (fillCol0 c)))

/-- Extract one property column from the state. -/
def colOf (s : SoilState) (f : SoilLayer → Option ℚ) : PropCol :=
  ⟨f s.l0, f s.l1, f s.l2, f s.l3⟩

/-- Rebuild the state from its three property columns. -/
def stateOfCols (c sd o : PropCol) : SoilState :=
  ⟨⟨c.v0, sd.v0, o.v0⟩, ⟨c.v1, sd.v1, o.v1⟩,
   ⟨c.v2, sd.v2, o.v2⟩, ⟨c.v3, sd.v3, o.v3⟩⟩

/-- Stage B (lines 127-156) on the whole state: the three property columns
are filled independently (the loop bodies touch only the property being
processed). -/
def stageB (s : SoilState) : SoilState :=
  stateOfCols (fillCol (colOf s SoilLayer.clay))
    (fillCol (colOf s SoilLayer.sand)) (fillCol (colOf s SoilLayer.om))

/-- The full gap fill: stage A then stage B. -/
def gapFill (s : SoilState) : SoilState := stageB (stageA s)

/-- The check of line 93: some property of some layer is present. -/
def anyData (s : SoilState) : Bool :=
  hasData s.l0 || hasData s.l1 || hasData s.l2 || hasData s.l3

/-- One row of the persisted `soil_data.csv`: depth label, thickness in
meters, and the three (possibly still missing) property values. -/
structure SoilRow where
  depth : String
  thickness : ℚ
  clay : Option ℚ
  sand : Option ℚ
  om : Option ℚ
deriving DecidableEq

/-- Rows of the persisted table, in the fixed depth order with the fixed
thicknesses 0.3, 0.3, 0.4, 1.0 (lines 10-16 and 158-174). -/
def rowsOf (s : SoilState) : List SoilRow :=
  [⟨"0-30cm", 3/10, s.l0.clay, s.l0.sand, s.l0.om⟩,
   ⟨"30-60cm", 3/10, s.l1.clay, s.l1.sand, s.l1.om⟩,
   ⟨"60-100cm", 2/5, s.l2.clay, s.l2.sand, s.l2.om⟩,
   ⟨"100-200cm", 1, s.l3.clay, s.l3.sand, s.l3.om⟩]

/-- `lib/soil_api_client.py` lines 56-197
(`extract_and_save_soil_data`), applied to the parsed per-depth values:
return `None` when no property of any layer is present (lines 93-95),
otherwise gap-fill and persist the four rows in depth order. -/
def extract_and_save_soil_data (s : SoilState) : Option (List SoilRow) :=
  if anyData s then some (rowsOf (gapFill s)) else none

/-! ## Helper lemmas -/

/-- On a non-empty list, `np.argmin` yields a valid index. -/
lemma argminIdx_lt_length : ∀ (l : List ℚ), l ≠ [] → argminIdx l < l.length := by
  intro l
  induction l with
  | nil => intro h; exact absurd rfl h
  | cons x xs ih =>
    intro _
    cases xs with
    | nil => simp [argminIdx]
    | cons y ys =>
      simp only [argminIdx]
      split
      · simp
      · have := ih (by simp)
        simp only [List.length_cons] at this ⊢
        omega

/-- The entry at `np.argmin` is minimal. -/
lemma argminIdx_min : ∀ (l : List ℚ) (i : ℕ), i < l.length →
    l.getD (argminIdx l) 0 ≤ l.getD i 0 := by
  intro l
  induction l with
  | nil => intro i hi; simp at hi
  | cons x xs ih =>
    intro i hi
    cases xs with
    | nil =>
      have hz : i = 0 := by simpa using hi
      subst hz
      simp [argminIdx]
    | cons y ys =>
      by_cases hx : x ≤ (y :: ys).getD (argminIdx (y :: ys)) 0
      · simp only [argminIdx, if_pos hx]
        cases i with
        | zero => simp
        | succ j =>
          have hj : j < (y :: ys).length := by
            simpa [Nat.succ_lt_succ_iff] using hi
          calc (x :: y :: ys).getD 0 0 = x := by simp
            _ ≤ (y :: ys).getD (argminIdx (y :: ys)) 0 := hx
            _ ≤ (y :: ys).getD j 0 := ih j hj
            _ = (x :: y :: ys).getD (j + 1) 0 := by simp
      · simp only [argminIdx, if_neg hx, List.getD_cons_succ]
        cases i with
        | zero =>
          simp only [List.getD_cons_zero]
          exact le_of_lt (lt_of_not_le hx)
        | succ j =>
          have hj : j < (y :: ys).length := by
            simpa [Nat.succ_lt_succ_iff] using hi
          simpa using ih j hj

/-- Entries strictly before `np.argmin` are strictly larger: the first
minimal index is returned. -/
lemma argminIdx_first : ∀ (l : List ℚ) (i : ℕ), i < argminIdx l →
    l.getD (argminIdx l) 0 < l.getD i 0 := by
  intro l
  induction l with
  | nil => intro i hi; simp [argminIdx] at hi
  | cons x xs ih =>
    intro i hi
    cases xs with
    | nil => simp [argminIdx] at hi
    | cons y ys =>
      by_cases hx : x ≤ (y :: ys).getD (argminIdx (y :: ys)) 0
      · have h0 : argminIdx (x :: y :: ys) = 0 := by
          simp only [argminIdx, if_pos hx]
        rw [h0] at hi
        exact absurd hi (Nat.not_lt_zero i)
      · simp only [argminIdx, if_neg hx, List.getD_cons_succ] at hi ⊢
        cases i with
        | zero =>
          simp only [List.getD_cons_zero]
          exact lt_of_not_le hx
        | succ j =>
          have hj : j < argminIdx (y :: ys) := by omega
          simpa using ih j hj

/-- A completed evaluation pass yields one score per task. -/
lemma evalAll_length (evalF : List ℚ → Except String ℚ) :
    ∀ (ts : List (List ℚ)) (rs : List ℚ),
      evalAll evalF ts = Except.ok rs → rs.length = ts.length := by
  intro ts
  induction ts with
  | nil =>
    intro rs h
    simp only [evalAll] at h
    cases h
    rfl
  | cons t ts ih =>
    intro rs h
    simp only [evalAll] at h
    cases he : evalF t with
    | error e => rw [he] at h; cases h
    | ok r =>
      rw [he] at h
      cases ha : evalAll evalF ts with
      | error e => rw [ha] at h; cases h
      | ok rs2 =>
        rw [ha] at h
        cases h
        simp [ih rs2 ha]

/-- A property column has at least one present value. -/
def colHas (c : PropCol) : Bool :=
  c.v0.isSome || c.v1.isSome || c.v2.isSome || c.v3.isSome

/-- If a property column has at least one present value, stage B fills the
property in all four layers. -/
lemma fillCol_total (c : PropCol) (h : colHas c = true) :
    (fillCol c).v0.isSome = true ∧ (fillCol c).v1.isSome = true ∧
    (fillCol c).v2.isSome = true ∧ (fillCol c).v3.isSome = true := by
  obtain ⟨a, b, c2, d⟩ := c
  rcases a with _ | a <;> rcases b with _ | b <;> rcases c2 with _ | c2 <;>
    rcases d with _ | d <;>
    simp_all [colHas, fillCol, fillCol0, fillCol1, fillCol2, fillCol3,
      firstSome]

/-- Stage A's fill of layer 0 preserves existence of a value in any
property column (a copy only overwrites an all-`None` layer). -/
lemma fillMissing0_pres (f : SoilLayer → Option ℚ)
    (hf : ∀ l, hasData l = false → f l = none) (s : SoilState)
    (h : colHas (colOf s f) = true) :
    colHas (colOf (fillMissing0 s) f) = true := by
  cases h0 : hasData s.l0 <;> cases h1 : hasData s.l1 <;>
    cases h2 : hasData s.l2 <;> cases h3 : hasData s.l3 <;>
    simp_all [fillMissing0, colHas, colOf, hf]

/-- Stage A's fill of layer 1 preserves existence in any property column. -/
lemma fillMissing1_pres (f : SoilLayer → Option ℚ)
    (hf : ∀ l, hasData l = false → f l = none) (s : SoilState)
    (h : colHas (colOf s f) = true) :
    colHas (colOf (fillMissing1 s) f) = true := by
  cases h0 : hasData s.l0 <;> cases h1 : hasData s.l1 <;>
    cases h2 : hasData s.l2 <;> cases h3 : hasData s.l3 <;>
    simp_all [fillMissing1, colHas, colOf, hf]

/-- Stage A's fill of layer 2 preserves existence in any property column. -/
lemma fillMissing2_pres (f : SoilLayer → Option ℚ)
    (hf : ∀ l, hasData l = false → f l = none) (s : SoilState)
    (h : colHas (colOf s f) = true) :
    colHas (colOf (fillMissing2 s) f) = true := by
  cases h0 : hasData s.l0 <;> cases h1 : hasData s.l1 <;>
    cases h2 : hasData s.l2 <;> cases h3 : hasData s.l3 <;>
    simp_all [fillMissing2, colHas, colOf, hf]

/-- Stage A's fill of layer 3 preserves existence in any property column. -/
lemma fillMissing3_pres (f : SoilLayer → Option ℚ)
    (hf : ∀ l, hasData l = false → f l = none) (s : SoilState)
    (h : colHas (colOf s f) = true) :
    colHas (colOf (fillMissing3 s) f) = true := by
  cases h0 : hasData s.l0 <;> cases h1 : hasData s.l1 <;>
    cases h2 : hasData s.l2 <;> cases h3 : hasData s.l3 <;>
    simp_all [fillMissing3, colHas, colOf, hf]

/-- Stage A preserves existence of a value in any property column. -/
lemma stageA_pres (f : SoilLayer → Option ℚ)
    (hf : ∀ l, hasData l = false → f l = none) (s : SoilState)
    (h : colHas (colOf s f) = true) :
    colHas (colOf (stageA s) f) = true :=
  fillMissing3_pres f hf _ (fillMissing2_pres f hf _
    (fillMissing1_pres f hf _ (fillMissing0_pres f hf _ h)))

/-- A present value in a property column makes the line-93 check pass. -/
lemma anyData_of_col (f : SoilLayer → Option ℚ)
    (hf : ∀ l, (f l).isSome = true → hasData l = true) (s : SoilState)
    (h : colHas (colOf s f) = true) : anyData s = true := by
  simp only [colHas, colOf, Bool.or_eq_true] at h
  simp only [anyData, Bool.or_eq_true]
  rcases h with ((h | h) | h) | h
  · exact Or.inl (Or.inl (Or.inl (hf _ h)))
  · exact Or.inl (Or.inl (Or.inr (hf _ h)))
  · exact Or.inl (Or.inr (hf _ h))
  · exact Or.inr (hf _ h)

/-- A layer with no data has no clay value. -/
lemma clay_none_of_no_data (l : SoilLayer) (hl : hasData l = false) :
    l.clay = none := by
  cases hc : l.clay
  · rfl
  · simp [hasData, hc] at hl

/-- A layer with no data has no sand value. -/
lemma sand_none_of_no_data (l : SoilLayer) (hl : hasData l = false) :
    l.sand = none := by
  cases hc : l.sand
  · rfl
  · simp [hasData, hc] at hl

/-- A layer with no data has no organic-matter value. -/
lemma om_none_of_no_data (l : SoilLayer) (hl : hasData l = false) :
    l.om = none := by
  cases hc : l.om
  · rfl
  · simp [hasData, hc] at hl

/-- A clay value makes the layer carry data. -/
lemma hasData_of_clay (l : SoilLayer) (h : l.clay.isSome = true) :
    hasData l = true := by
  simp [hasData, h]

/-- A sand value makes the layer carry data. -/
lemma hasData_of_sand (l : SoilLayer) (h : l.sand.isSome = true) :
    hasData l = true := by
  simp [hasData, h]

/-- An organic-matter value makes the layer carry data. -/
lemma hasData_of_om (l : SoilLayer) (h : l.om.isSome = true) :
    hasData l = true := by
  simp [hasData, h]

/-! ## Claims -/

/-- C1 (counterexample): with a stub simulator whose single-season dry yield
is 3, `_eval_smt` in non-diagnostic mode returns `-3`, not the reward `3`
itself — the negation happens inside the Evaluator, so the claim that the
Evaluator returns the reward and the caller negates is false on the code. -/
theorem c1_eval_counterexample :
    eval_smt (fun _ => ⟨[3], [7]⟩) [50, 50, 50, 50] false =
      EvalOut.scalar (-3) ∧
    mean (SimResults.dryYield ⟨[3], [7]⟩) = 3 ∧
    EvalOut.scalar (-3) ≠ EvalOut.scalar 3 := by
  refine ⟨?_, ?_, ?_⟩
  · simp [eval_smt, mean]
  · simp [mean]
  · intro h
    rw [EvalOut.scalar.injEq] at h
    norm_num at h

/-- C1 (amended): for every simulator and trigger vector, `_eval_smt` in
non-diagnostic mode returns the NEGATED reward `-(mean dry yield)` (the
Evaluator itself performs the minimization negation), and in diagnostic mode
returns the triple `(mean yield, mean seasonal irrigation, reward)` whose
first and third components are equal. -/
theorem c1_eval_smt_amended (runModel : List ℚ → SimResults)
    (smt : List ℚ) :
    eval_smt runModel smt false =
      EvalOut.scalar (-(mean (runModel smt).dryYield)) ∧
    eval_smt runModel smt true =
      EvalOut.triple (mean (runModel smt).dryYield)
        (mean (runModel smt).seasonalIrr) (mean (runModel smt).dryYield) :=
  ⟨rfl, rfl⟩

/-- C2 (counterexample): with one candidate whose evaluation always raises,
the parallel attempt fails (the worker exception is re-raised by
`pool.starmap` and caught) and the sequential fallback re-raises it; every
evaluation has then failed and produced no score, yet `_find_start_smt`
propagates the exception instead of returning the all-50 default vector, so
the claim that it returns the default without raising is false on the
code. -/
theorem c2_find_start_counterexample :
    find_start_smt 2 [[1, 1]] (fun _ => Except.error "sim failure") false =
      Except.error "sim failure" ∧
    (Except.error "sim failure" : Except String (List ℚ)) ≠
      Except.ok (List.replicate 2 (50 : ℚ)) :=
  ⟨rfl, fun h => Except.noConfusion h⟩

/-- C2 (amended): when the evaluation passes complete with an empty score
list — which happens exactly when the candidate batch itself is empty —
`_find_start_smt` returns, without raising, the fixed default vector of
length `num_smts` with every component equal to 50; but when candidate
evaluations fail by raising, the sequential fallback's exception propagates
and no default is returned (see the counterexample). -/
theorem c2_find_start_default (num_smts : ℕ) (x0list : List (List ℚ))
    (evalF : List ℚ → Except String ℚ) (poolFails : Bool)
    (h : evalAll evalF x0list = Except.ok []) :
    find_start_smt num_smts x0list evalF poolFails =
      Except.ok (List.replicate num_smts 50) ∧
    (List.replicate num_smts (50 : ℚ)).length = num_smts ∧
    ∀ c ∈ List.replicate num_smts (50 : ℚ), c = 50 := by
  refine ⟨?_, by simp, fun c hc => List.eq_of_mem_replicate hc⟩
  unfold find_start_smt
  cases poolFails <;> simp [h]

/-- C2 (witness): for the empty candidate batch with an always-raising
evaluator, both evaluation passes produce no score at all and the default
vector of length 4 is returned. -/
theorem c2_find_start_default_witness :
    evalAll (fun _ => Except.error "sim failure") [] = Except.ok [] ∧
    find_start_smt 4 [] (fun _ => Except.error "sim failure") true =
      Except.ok (List.replicate 4 50) :=
  ⟨rfl, (c2_find_start_default 4 [] (fun _ => Except.error "sim failure")
    true rfl).1⟩

/-- C4: when the evaluation pass succeeds with a non-empty score list,
`_find_start_smt` returns verbatim (unmodified) the candidate of the drawn
batch at index `np.argmin(rlist)`: that index is valid, its score is ≤ every
score in the batch, and every strictly earlier index has a strictly larger
score — the first minimal index wins ties. -/
theorem c4_find_start_selects_first_min (num_smts : ℕ)
    (x0list : List (List ℚ)) (evalF : List ℚ → Except String ℚ)
    (poolFails : Bool) (rlist : List ℚ)
    (h : evalAll evalF x0list = Except.ok rlist) (hne : rlist ≠ []) :
    find_start_smt num_smts x0list evalF poolFails =
      Except.ok (x0list.getD (argminIdx rlist) []) ∧
    argminIdx rlist < x0list.length ∧
    (∀ i < rlist.length, rlist.getD (argminIdx rlist) 0 ≤ rlist.getD i 0) ∧
    (∀ i < argminIdx rlist, rlist.getD (argminIdx rlist) 0 < rlist.getD i 0) := by
  have hlen := evalAll_length evalF x0list rlist h
  have hlt := argminIdx_lt_length rlist hne
  refine ⟨?_, by omega, fun i hi => argminIdx_min rlist i hi,
    fun i hi => argminIdx_first rlist i hi⟩
  unfold find_start_smt
  cases poolFails <;> simp [h, hne]

/-- C4 (witness): for the batch `[[10], [20]]` under the stub evaluator
returning the negated head, the scores are `[-10, -20]`; the unique minimum
sits at index 1 and the candidate `[20]` is returned verbatim. -/
theorem c4_find_start_selects_first_min_witness :
    evalAll (fun v => Except.ok (-(v.headD 0))) [[10], [20]] =
      Except.ok [-10, -20] ∧
    find_start_smt 1 [[10], [20]] (fun v => Except.ok (-(v.headD 0))) false =
      Except.ok [20] := by
  have h : evalAll (fun v : List ℚ =>
      (Except.ok (-(v.headD 0)) : Except String ℚ)) [[10], [20]] =
      Except.ok [-10, -20] := by
    norm_num [evalAll]
  refine ⟨h, ?_⟩
  have hsel := (c4_find_start_selects_first_min 1 [[10], [20]]
    (fun v => Except.ok (-(v.headD 0))) false [-10, -20] h (by simp)).1
  rw [hsel]
  norm_num [argminIdx]

/-- C5: with identical random draws and the same deterministic per-candidate
evaluator, the forced-sequential fallback path of `_find_start_smt` returns
exactly what the parallel path returns: both evaluate the same candidates in
the same order with the same evaluation function and apply the same
selection logic. -/
theorem c5_parallel_sequential_agree (num_smts : ℕ)
    (x0list : List (List ℚ)) (evalF : List ℚ → Except String ℚ) :
    find_start_smt num_smts x0list evalF false =
      find_start_smt num_smts x0list evalF true := by
  unfold find_start_smt
  cases h : evalAll evalF x0list <;> simp [h]

/-- C3: for a calendar window of `m` days and a reported irrigation series
`irr` of `n` days, the materialized `IrrDay` column has exactly `m` rows and
equals the first `min n m` reported values in order followed by zeros — so
for `n < m` it is `irr` padded with `m - n` zeros, and for `n ≥ m` it is the
positional truncation of `irr` to its first `m` values (padding count
`m - n` is then 0). -/
theorem c3_irrDayColumn (m : ℕ) (irr : List ℚ) :
    (irrDayColumn m irr).length = m ∧
    irrDayColumn m irr = irr.take m ++ List.replicate (m - irr.length) 0 := by
  constructor
  · simp only [irrDayColumn, List.length_append, List.length_take,
      List.length_replicate]
    omega
  · rcases le_total irr.length m with h | h
    · simp [irrDayColumn, min_eq_left h, List.take_of_length_le h,
        List.take_length]
    · simp [irrDayColumn, min_eq_right h, Nat.sub_eq_zero_of_le h]

/-- C6: the element-wise clip to `[0,100]` applied by the Orchestrator
(line 283) is the identity on vectors already inside `[0,100]^k`, and maps
every vector to one with all components in `[0,100]`. -/
theorem c6_clip100 (v : List ℚ) :
    ((∀ x ∈ v, 0 ≤ x ∧ x ≤ 100) → clip100 v = v) ∧
    (∀ x ∈ clip100 v, 0 ≤ x ∧ x ≤ 100) := by
  constructor
  · induction v with
    | nil => intro _; rfl
    | cons a t ih =>
      intro h
      have ha := h a (by simp)
      have ht := ih (fun x hx => h x (by simp [hx]))
      simp only [clip100, List.map_cons] at ht ⊢
      rw [max_eq_left ha.1, min_eq_left ha.2]
      simpa using ht
  · intro x hx
    simp only [clip100, List.mem_map] at hx
    obtain ⟨y, _, rfl⟩ := hx
    exact ⟨le_min (le_max_right y 0) (by norm_num), min_le_right _ _⟩

/-- C6 (witness): the clip is a no-op on the in-range vector `[0, 50, 100]`,
and every component of the clip of the out-of-range vector `[-5, 150]` lies
in `[0, 100]`. -/
theorem c6_clip100_witness :
    clip100 [0, 50, 100] = [0, 50, 100] ∧
    ∀ x ∈ clip100 [-5, 150], 0 ≤ x ∧ x ≤ 100 :=
  ⟨(c6_clip100 [0, 50, 100]).1 (by decide), (c6_clip100 [-5, 150]).2⟩

/-- C7: if after the data-acquisition attempt the weather artifact or the
soil artifact is still absent (no other exception having escaped the
generation phase), `generate_schedule` surfaces a missing-input error
carrying the specific missing path — and does so regardless of what the
downstream search/materialization would return, i.e. it never silently
continues past the precondition check. -/
theorem c7_missing_artifacts_fatal (fs : String → Bool)
    (climatePath soilPath sim_start_date sim_end_date : String)
    (rest : Int → Int → Except SchedError (List ℚ × String))
    (h : fs climatePath = false ∨ fs soilPath = false) :
    ∃ p, (p = climatePath ∨ p = soilPath) ∧ fs p = false ∧
      generate_schedule none fs climatePath soilPath sim_start_date
        sim_end_date rest = Except.error (SchedError.missingInput p) := by
  unfold generate_schedule profile_prep
  by_cases hc : fs climatePath = false
  · exact ⟨climatePath, Or.inl rfl, hc, by simp [hc]⟩
  · have hs : fs soilPath = false := h.resolve_left hc
    have hc' : fs climatePath = true := by
      cases hcv : fs climatePath
      · exact absurd hcv hc
      · rfl
    exact ⟨soilPath, Or.inr rfl, hs, by simp [hc', hs]⟩

/-- C7 (witness): on an empty filesystem the run aborts with a missing-input
error naming one of the two required artifact paths. -/
theorem c7_missing_artifacts_fatal_witness :
    ∃ p, (p = "db/climate_data.txt" ∨ p = "db/soil_data.csv") ∧
      (fun _ : String => false) p = false ∧
      generate_schedule none (fun _ => false) "db/climate_data.txt"
        "db/soil_data.csv" "2024/01/01" "2025/12/31"
        (fun _ _ => Except.ok ([], "out")) =
        Except.error (SchedError.missingInput p) :=
  c7_missing_artifacts_fatal (fun _ => false) "db/climate_data.txt"
    "db/soil_data.csv" "2024/01/01" "2025/12/31"
    (fun _ _ => Except.ok ([], "out")) (Or.inl rfl)

/-- C8 (counterexample): the date validation of `generate_schedule` parses
only the text before the first slash; the malformed date string "2024"
(not of the form YYYY/MM/DD) parses as the year 2024, no input-validation
error is raised, and the downstream search pipeline runs. -/
theorem c8_date_validation_counterexample :
    specIsDateYYYYMMDD "2024" = false ∧
    generate_schedule none (fun _ => true) "db/climate_data.txt"
      "db/soil_data.csv" "2024" "2024"
      (fun _ _ => Except.ok ([70], "schedule.csv")) =
      Except.ok ([70], "schedule.csv") := by
  constructor
  · decide
  · rfl

/-- C8 (amended): `generate_schedule` raises its input-validation error only
for date strings whose leading '/'-separated field does not parse as a
Python integer: when either simulation date fails that partial check (the
required artifacts being present), the error is raised before any search
runs and the downstream pipeline is never consulted.  Malformed dates whose
leading field happens to parse as an integer are accepted (see the
counterexample). -/
theorem c8_date_validation_amended (fs : String → Bool)
    (climatePath soilPath start_s end_s : String)
    (rest : Int → Int → Except SchedError (List ℚ × String))
    (hc : fs climatePath = true) (hs : fs soilPath = true)
    (h : parseYearPy start_s = none ∨ parseYearPy end_s = none) :
    generate_schedule none fs climatePath soilPath start_s end_s rest =
      Except.error SchedError.invalidDates := by
  unfold generate_schedule profile_prep
  rcases h with h | h
  · simp [hc, hs, h]
  · cases hps : parseYearPy start_s <;> simp [hc, hs, h, hps]

/-- C8 (amended, witness): the date "abc/01/01" fails the leading-field
integer parse and the run aborts with the input-validation error. -/
theorem c8_date_validation_amended_witness :
    parseYearPy "abc/01/01" = none ∧
    generate_schedule none (fun _ => true) "db/climate_data.txt"
      "db/soil_data.csv" "abc/01/01" "2025/12/31"
      (fun _ _ => Except.ok ([], "out")) =
      Except.error SchedError.invalidDates := by
  have h : parseYearPy "abc/01/01" = none := by decide
  exact ⟨h, c8_date_validation_amended (fun _ => true) "db/climate_data.txt"
    "db/soil_data.csv" "abc/01/01" "2025/12/31"
    (fun _ _ => Except.ok ([], "out")) rfl rfl (Or.inl h)⟩

/-- C9: for every parsed set of API results, if at least one depth layer
carries a value for clay (respectively sand, organic matter), then the
persisted soil table exists and has that property present in every one of
the four layers; the rows are always in the fixed depth order
0-30cm, 30-60cm, 60-100cm, 100-200cm with thicknesses 0.3, 0.3, 0.4, 1.0. -/
theorem c9_soil_gap_fill (s : SoilState) :
    (colHas (colOf s SoilLayer.clay) = true →
      extract_and_save_soil_data s = some (rowsOf (gapFill s)) ∧
      ∀ r ∈ rowsOf (gapFill s), r.clay.isSome = true) ∧
    (colHas (colOf s SoilLayer.sand) = true →
      extract_and_save_soil_data s = some (rowsOf (gapFill s)) ∧
      ∀ r ∈ rowsOf (gapFill s), r.sand.isSome = true) ∧
    (colHas (colOf s SoilLayer.om) = true →
      extract_and_save_soil_data s = some (rowsOf (gapFill s)) ∧
      ∀ r ∈ rowsOf (gapFill s), r.om.isSome = true) ∧
    (rowsOf (gapFill s)).map SoilRow.depth =
      ["0-30cm", "30-60cm", "60-100cm", "100-200cm"] ∧
    (rowsOf (gapFill s)).map SoilRow.thickness = [3/10, 3/10, 2/5, 1] := by
  refine ⟨?_, ?_, ?_, rfl, rfl⟩
  · intro h
    have hAny : anyData s = true :=
      anyData_of_col SoilLayer.clay hasData_of_clay s h
    have hT := fillCol_total _ (stageA_pres SoilLayer.clay
      clay_none_of_no_data s h)
    refine ⟨by simp [extract_and_save_soil_data, hAny], ?_⟩
    intro r hr
    simp only [rowsOf, List.mem_cons, List.not_mem_nil, or_false] at hr
    rcases hr with rfl | rfl | rfl | rfl
    · exact hT.1
    · exact hT.2.1
    · exact hT.2.2.1
    · exact hT.2.2.2
  · intro h
    have hAny : anyData s = true :=
      anyData_of_col SoilLayer.sand hasData_of_sand s h
    have hT := fillCol_total _ (stageA_pres SoilLayer.sand
      sand_none_of_no_data s h)
    refine ⟨by simp [extract_and_save_soil_data, hAny], ?_⟩
    intro r hr
    simp only [rowsOf, List.mem_cons, List.not_mem_nil, or_false] at hr
    rcases hr with rfl | rfl | rfl | rfl
    · exact hT.1
    · exact hT.2.1
    · exact hT.2.2.1
    · exact hT.2.2.2
  · intro h
    have hAny : anyData s = true :=
      anyData_of_col SoilLayer.om hasData_of_om s h
    have hT := fillCol_total _ (stageA_pres SoilLayer.om
      om_none_of_no_data s h)
    refine ⟨by simp [extract_and_save_soil_data, hAny], ?_⟩
    intro r hr
    simp only [rowsOf, List.mem_cons, List.not_mem_nil, or_false] at hr
    rcases hr with rfl | rfl | rfl | rfl
    · exact hT.1
    · exact hT.2.1
    · exact hT.2.2.1
    · exact hT.2.2.2

/-- The parsed API result used to witness the gap-fill claim: only the top
layer carries values (clay 20 %, sand 40 %, organic matter 1 %). -/
def soilWitnessState : SoilState :=
  ⟨⟨some 20, some 40, some 1⟩, ⟨none, none, none⟩,
   ⟨none, none, none⟩, ⟨none, none, none⟩⟩

/-- C9 (witness): with data only in the top layer, the claim's hypothesis
holds for clay and the persisted table has clay in all four rows. -/
theorem c9_soil_gap_fill_witness :
    colHas (colOf soilWitnessState SoilLayer.clay) = true ∧
    (extract_and_save_soil_data soilWitnessState =
      some (rowsOf (gapFill soilWitnessState)) ∧
    ∀ r ∈ rowsOf (gapFill soilWitnessState), r.clay.isSome = true) :=
  ⟨rfl, (c9_soil_gap_fill soilWitnessState).1 rfl⟩

/-- C10: for every weather row (and every behaviour of the opaque
`aqcrop_eto` helpers), `pm_ops` returns a non-negative reference
evapotranspiration: the FAO-56 Penman-Monteith result itself when that
result is non-negative, and exactly 0 when it is negative. -/
theorem c10_pm_ops (lib : EtoLib) (row : WeatherRow) :
    0 ≤ pm_ops lib row ∧
    pm_ops lib row = if 0 ≤ etoOf lib row then etoOf lib row else 0 := by
  constructor
  · exact le_max_right _ _
  · unfold pm_ops
    by_cases h : 0 ≤ etoOf lib row
    · rw [if_pos h, max_eq_left h]
    · rw [if_neg h, max_eq_right (le_of_not_le h)]

end Fao56Scheduler
